import Mathlib

/-!
Verification of the rrg_deg interactive single-cell analysis dashboard
(`streamlit_app.py`).

The development shallowly embeds the data-handling core of the script:

* `load_table` models `load_data`: each configured CSV is read through a
  fallible `read` function (`None` models the `FileNotFoundError` branch),
  every successfully loaded table is tagged with its dataset key, and the
  tagged tables are concatenated with `pdConcat`.  `pandas.concat` raises
  `ValueError` when given an empty list of frames, so `pdConcat [] = none`.
* `selected_dataset`, `dge_subset`, `dge_cell_type_subset`, `comp1Options`,
  `comp2Options` model the cascading sidebar selection.
* `significant` and `classifyTable` model the significance column assignment
  on `filtered_dge`.
* `volcanoEpsilon` models the epsilon term
  `min(filtered_dge["p_val_adj"][filtered_dge["p_val_adj"] > 0])` of the
  volcano-plot y transform; the Python builtin `min` raises `ValueError` on an empty
  sequence, modelled as `none`.
* `filtered_gsea` models the GSEA filter / `sort_values("padj")` /
  `head(gsea_pathway_count)` pipeline.  The embedding uses the stable
  `List.insertionSort` for the sort.

Floating-point columns are embedded as rationals: every property checked here
is purely order-theoretic (strict comparisons, minima, sort keys), so the
ordered-field structure of `ℚ` is a faithful stand-in for the non-NaN floats
the tables contain.
-/

namespace RrgDeg

/-- One row of the unified DGE table produced by `load_data` (after the
`cell` → `cell_type` rename). -/
structure DgeRow where
  dataset : String
  cell_type : String
  comp1 : String
  comp2 : String
  gene : String
  avg_log2FC : ℚ
  p_val_adj : ℚ
deriving DecidableEq, Repr

/-- One row of the unified GSEA table produced by `load_data` (after the
`Term` → `pathway` and `FDR q-val` → `padj` renames). -/
structure GseaRow where
  dataset : String
  cell_type : String
  comp1 : String
  comp2 : String
  pathway : String
  NES : ℚ
  padj : ℚ
deriving DecidableEq, Repr

/-- Tagging a loaded table with its dataset key: `df["dataset"] = name`.
A tagged row is the pair (dataset key, original row). -/
def tagRows {α : Type} (name : String) (rows : List α) : List (String × α) :=
  rows.map fun r => (name, r)

/-- The per-dataset load loop: for each `(name, path)` in the configured file
mapping, `read_data(path)` either yields a table or `None` (the
`FileNotFoundError` branch warns and skips), and each loaded table is kept
with its dataset key. -/
def collectTables {α : Type} (read : String → Option (List α))
    (files : List (String × String)) : List (String × List α) :=
  files.filterMap fun np => (read np.2).map fun t => (np.1, t)

/-- `pandas.concat` over the list of tagged tables.  `pd.concat([])` raises
`ValueError: No objects to concatenate`, modelled by `none`; otherwise the
result is the row-preserving concatenation. -/
def pdConcat {α : Type} (ts : List (String × List α)) : Option (List (String × α)) :=
  if ts.isEmpty then none else some (ts.flatMap fun nt => tagRows nt.1 nt.2)

/-- The configured DGE file mapping (`dge_files` in the script). -/
def dge_files : List (String × String) :=
  [("cd45pos_rrg", "data/cd45pos_rrgcell_degs_wilcoxon.csv"),
   ("cd45pos_jeff", "data/cd45pos_jeffcell_degs_wilcoxon.csv"),
   ("cd45neg_rrg", "data/cd45neg_rrgcell_degs_wilcoxon.csv")]

/-- The configured GSEA file mapping (`gsea_files` in the script). -/
def gsea_files : List (String × String) :=
  [("cd45pos_rrg", "data/cd45pos_rrgcell_gsea.csv"),
   ("cd45pos_jeff", "data/cd45pos_jeffcell_gsea.csv"),
   ("cd45neg_rrg", "data/cd45neg_rrgcell_gsea.csv")]

/-- One half of `load_data`: read every configured file, tag the loaded
tables, and concatenate them.  (The column renames are reflected in the field
names of `DgeRow`/`GseaRow` and do not affect row structure.) -/
def load_table {α : Type} (read : String → Option (List α))
    (files : List (String × String)) : Option (List (String × α)) :=
  pdConcat (collectTables read files)

/-- The dataset selection logic of the sidebar: `cd45pos` requires an
annotation choice and yields `cd45pos_{annotation_type}`; anything else
takes the `else` branch and yields `cd45neg_rrg`. -/
def selected_dataset (main_group annotation_type : String) : String :=
  if main_group = "cd45pos" then "cd45pos_" ++ annotation_type else "cd45neg_rrg"

/-- The rows of the unified DGE table whose `dataset` equals the selected
dataset (`all_dge[all_dge["dataset"] == selected_dataset]`). -/
def dge_subset (ds : String) (rows : List DgeRow) : List DgeRow :=
  rows.filter fun r => decide (r.dataset = ds)

/-- The further restriction to the chosen cell type
(`dge_subset[dge_subset["cell_type"] == cell_type]`). -/
def dge_cell_type_subset (ds ct : String) (rows : List DgeRow) : List DgeRow :=
  (dge_subset ds rows).filter fun r => decide (r.cell_type = ct)

/-- The option set of the comparison-group-1 selectbox:
`sorted(dge_cell_type_subset["comp1"].unique())`.  `unique()` keeps one copy
of each distinct value and `sorted` orders them lexicographically, so the
result is the sorted list of distinct `comp1` values; the embedding obtains
the same list by deduplicating and sorting. -/
def comp1Options (ds ct : String) (rows : List DgeRow) : List String :=
  List.insertionSort (· ≤ ·) (((dge_cell_type_subset ds ct rows).map fun r => r.comp1).dedup)

/-- The option set of the comparison-group-2 selectbox:
`sorted(dge_cell_type_subset[dge_cell_type_subset["comp1"] == comp1]["comp2"].unique())`. -/
def comp2Options (ds ct c1 : String) (rows : List DgeRow) : List String :=
  List.insertionSort (· ≤ ·)
    ((((dge_cell_type_subset ds ct rows).filter fun r => decide (r.comp1 = c1)).map
        fun r => r.comp2).dedup)

/-- The fully filtered DGE table of tab 1:
`dge_cell_type_subset[(comp1 == comp1) & (comp2 == comp2)]`. -/
def filtered_dge (ds ct c1 c2 : String) (rows : List DgeRow) : List DgeRow :=
  (dge_cell_type_subset ds ct rows).filter fun r =>
    decide (r.comp1 = c1) && decide (r.comp2 = c2)

/-- The significance label of one row:
`(p_val_adj < pval_cutoff) & (abs(avg_log2FC) > logfc_cutoff)` mapped through
`{True: "Significant", False: "Not Significant"}`. -/
def significant (pval_cutoff logfc_cutoff : ℚ) (r : DgeRow) : String :=
  if r.p_val_adj < pval_cutoff ∧ |r.avg_log2FC| > logfc_cutoff then "Significant"
  else "Not Significant"

/-- The assignment `filtered_dge["significant"] = ...`: every row of the
filtered table is paired with its label. -/
def classifyTable (pval_cutoff logfc_cutoff : ℚ) (rows : List DgeRow) :
    List (DgeRow × String) :=
  rows.map fun r => (r, significant pval_cutoff logfc_cutoff r)

/-- The Python builtin `min` over a sequence: `ValueError` on an empty
sequence, modelled as `none`; otherwise the least element. -/
def pyMin (l : List ℚ) : Option ℚ :=
  match l with
  | [] => none
  | a :: as => some (as.foldl min a)

/-- The epsilon of the volcano-plot y transform:
`min(filtered_dge["p_val_adj"][filtered_dge["p_val_adj"] > 0])` — the minimum
over the strictly positive adjusted p-values of the filtered table. -/
def volcanoEpsilon (rows : List DgeRow) : Option ℚ :=
  pyMin ((rows.map fun r => r.p_val_adj).filter fun x => decide (0 < x))

/-- The four-field match predicate of the GSEA filter in tab 2. -/
def gseaMatches (ds ct c1 c2 : String) (r : GseaRow) : Bool :=
  decide (r.dataset = ds) && decide (r.cell_type = ct) &&
    decide (r.comp1 = c1) && decide (r.comp2 = c2)

/-- The sort key of `sort_values("padj")`: ascending comparison on `padj`. -/
def lePadj (a b : GseaRow) : Prop := a.padj ≤ b.padj

instance : DecidableRel lePadj := fun a b => inferInstanceAs (Decidable (a.padj ≤ b.padj))

instance : IsTotal GseaRow lePadj := ⟨fun a b => le_total a.padj b.padj⟩

instance : IsTrans GseaRow lePadj := ⟨fun _ _ _ h₁ h₂ => le_trans h₁ h₂⟩

/-- The filtered GSEA result of tab 2:
`all_gsea[matches].sort_values("padj").head(gsea_pathway_count)`. -/
def filtered_gsea (ds ct c1 c2 : String) (gsea_pathway_count : ℕ)
    (rows : List GseaRow) : List GseaRow :=
  (List.insertionSort lePadj (rows.filter (gseaMatches ds ct c1 c2))).take gsea_pathway_count

/-- The in-memory state of one recomputation pass: the two source tables
loaded by `load_data` and the two derived views rendered in the tabs. -/
structure AppState where
  all_dge : List DgeRow
  all_gsea : List GseaRow
  dge_view : List (DgeRow × String)
  gsea_view : List GseaRow

/-- One full derivation pass: recompute both views from the source tables
and the current selection, touching nothing else. -/
def renderStep (ds ct c1 c2 : String) (pval_cutoff logfc_cutoff : ℚ)
    (gsea_pathway_count : ℕ) (s : AppState) : AppState :=
  { s with
    dge_view := classifyTable pval_cutoff logfc_cutoff (filtered_dge ds ct c1 c2 s.all_dge),
    gsea_view := filtered_gsea ds ct c1 c2 gsea_pathway_count s.all_gsea }

/-- Row A of the worked example in the specification:
`{gene:"A", avg_log2FC:1.2, p_val_adj:0.001, ...}`. -/
def rowA : DgeRow := ⟨"cd45pos_rrg", "T", "X", "Y", "A", 12/10, 1/1000⟩

/-- Row B of the worked example in the specification:
`{gene:"B", avg_log2FC:0.1, p_val_adj:0.2, ...}`. -/
def rowB : DgeRow := ⟨"cd45pos_rrg", "T", "X", "Y", "B", 1/10, 2/10⟩

/-- Sample DGE row with integer-valued numeric columns, used to instantiate
general theorems on concrete data. -/
def rowW : DgeRow := ⟨"d", "T", "X", "Y", "g", 3, 5⟩

/-- Second sample DGE row: different labels, same numeric columns as `rowW`. -/
def rowW2 : DgeRow := ⟨"d2", "U", "V", "W", "g2", 3, 5⟩

/-- Sample GSEA row with integer-valued numeric columns. -/
def gRow : GseaRow := ⟨"d", "T", "X", "Y", "p", 1, 2⟩

/-- Sample DGE row whose adjusted p-value is exactly zero. -/
def zeroRow1 : DgeRow := ⟨"cd45pos_rrg", "T", "X", "Y", "G1", 1, 0⟩

/-- Second sample DGE row with adjusted p-value zero. -/
def zeroRow2 : DgeRow := ⟨"cd45pos_rrg", "T", "X", "Y", "G2", 2, 0⟩

/-- C7: the dataset selection is `cd45neg_rrg` whenever the main group is
`cd45neg`, independently of any annotation-type value, and is
`cd45pos_{annotation_type}` whenever the main group is `cd45pos`. -/
theorem selected_dataset_by_group : ∀ (main_group annotation_type : String),
    (main_group = "cd45neg" → selected_dataset main_group annotation_type = "cd45neg_rrg") ∧
    (main_group = "cd45pos" →
      selected_dataset main_group annotation_type = "cd45pos_" ++ annotation_type) := by
  intro mg an
  constructor
  · intro h
    subst h
    rw [selected_dataset, if_neg (by decide)]
  · intro h
    subst h
    rw [selected_dataset, if_pos rfl]

/-- Witness for C7 at the concrete selections (`cd45neg`, annotation `jeff`)
and (`cd45pos`, annotation `rrg`). -/
theorem selected_dataset_by_group_witness :
    ("cd45neg" : String) = "cd45neg" ∧ ("cd45pos" : String) = "cd45pos" ∧
    selected_dataset "cd45neg" "jeff" = "cd45neg_rrg" ∧
    selected_dataset "cd45pos" "rrg" = "cd45pos_" ++ "rrg" :=
  ⟨rfl, rfl, (selected_dataset_by_group "cd45neg" "jeff").1 rfl,
    (selected_dataset_by_group "cd45pos" "rrg").2 rfl⟩

/-- C9: one full derivation pass recomputes both views but leaves the loaded
source tables `all_dge` and `all_gsea` unchanged — derivation never mutates
source rows. -/
theorem renderStep_preserves_sources (ds ct c1 c2 : String) (pc lc : ℚ) (n : ℕ)
    (s : AppState) :
    (renderStep ds ct c1 c2 pc lc n s).all_dge = s.all_dge ∧
    (renderStep ds ct c1 c2 pc lc n s).all_gsea = s.all_gsea :=
  ⟨rfl, rfl⟩

/-- C4: on a non-empty filtered table whose adjusted p-values are all zero,
the epsilon computation of the volcano plot does not fall back to any
constant — `min` receives an empty sequence and fails (`none`, modelling the
`ValueError` raised by the Python builtin `min`), so the error branch is reachable. -/
theorem volcanoEpsilon_all_zero_fails : volcanoEpsilon [zeroRow1, zeroRow2] = none := by
  decide

/-- C5: when every configured CSV file is absent (`read` yields `none` on
every path), `load_data` does not produce an empty unified table: the
concatenation of zero frames fails (`none`, modelling the `ValueError`
raised by `pd.concat([])`), for the DGE files and for the GSEA files alike. -/
theorem load_table_all_missing_fails :
    load_table (α := DgeRow) (fun _ => none) dge_files = none ∧
    load_table (α := GseaRow) (fun _ => none) gsea_files = none :=
  ⟨rfl, rfl⟩

/-- C3: the significance classification is monotone in the cutoffs — a row
labelled `Not Significant` stays `Not Significant` when the p-value cutoff is
lowered and/or the log-fold-change cutoff is raised. -/
theorem significant_monotone : ∀ (pc pc' lc lc' : ℚ) (r : DgeRow),
    pc' ≤ pc → lc ≤ lc' → significant pc lc r = "Not Significant" →
    significant pc' lc' r = "Not Significant" := by
  intro pc pc' lc lc' r hp hl h
  by_cases hc : r.p_val_adj < pc' ∧ |r.avg_log2FC| > lc'
  · exfalso
    have hc' : r.p_val_adj < pc ∧ |r.avg_log2FC| > lc :=
      ⟨lt_of_lt_of_le hc.1 hp, lt_of_le_of_lt hl hc.2⟩
    rw [significant, if_pos hc'] at h
    exact absurd h (by decide)
  · rw [significant, if_neg hc]

/-- Witness for C3: `rowW` is `Not Significant` under cutoffs (1, 0) and
stays `Not Significant` after tightening to (1, 1). -/
theorem significant_monotone_witness :
    (1 : ℚ) ≤ 1 ∧ (0 : ℚ) ≤ 1 ∧ significant 1 0 rowW = "Not Significant" ∧
    significant 1 1 rowW = "Not Significant" :=
  ⟨by decide, by decide, by decide,
    significant_monotone 1 1 0 1 rowW (by decide) (by decide) (by decide)⟩

/-- C10: noninterference of the classifier — the label attached to a row of
the classified table depends only on the `p_val_adj` and `avg_log2FC` of that row
and the two cutoffs, never on the other rows of the table. -/
theorem significant_noninterference : ∀ (pc lc : ℚ) (t₁ t₂ : List DgeRow)
    (r₁ r₂ : DgeRow) (s₁ s₂ : String),
    (r₁, s₁) ∈ classifyTable pc lc t₁ → (r₂, s₂) ∈ classifyTable pc lc t₂ →
    r₁.p_val_adj = r₂.p_val_adj → r₁.avg_log2FC = r₂.avg_log2FC → s₁ = s₂ := by
  intro pc lc t₁ t₂ r₁ r₂ s₁ s₂ h₁ h₂ hp hf
  obtain ⟨a, _, hpa⟩ := List.mem_map.mp h₁
  obtain ⟨b, _, hpb⟩ := List.mem_map.mp h₂
  obtain ⟨ha, hs₁⟩ := Prod.mk.injEq .. ▸ hpa
  obtain ⟨hb, hs₂⟩ := Prod.mk.injEq .. ▸ hpb
  subst ha hb
  rw [← hs₁, ← hs₂, significant, significant, hp, hf]

/-- Witness for C10: `rowW` and `rowW2` differ in every label column but
share their numeric columns, and they receive the same label inside two
different tables. -/
theorem significant_noninterference_witness :
    (rowW, "Not Significant") ∈ classifyTable 1 2 [rowW] ∧
    (rowW2, "Not Significant") ∈ classifyTable 1 2 [rowW2, rowW2] ∧
    rowW.p_val_adj = rowW2.p_val_adj ∧ rowW.avg_log2FC = rowW2.avg_log2FC ∧
    ("Not Significant" : String) = "Not Significant" :=
  ⟨by decide, by decide, rfl, rfl,
    significant_noninterference 1 2 [rowW] [rowW2, rowW2] rowW rowW2 _ _
      (by decide) (by decide) rfl rfl⟩

/-- C1: a row of the classified filtered table is labelled `Significant`
exactly when `p_val_adj < pval_cutoff` and `|avg_log2FC| > logfc_cutoff`,
and is labelled `Not Significant` otherwise; in particular the two-row
example with cutoffs 0.5 and 0.05 labels row A `Significant` and row B
`Not Significant`. -/
theorem significant_iff_with_example :
    (∀ (pc lc : ℚ) (rows : List DgeRow) (r : DgeRow) (s : String),
        (r, s) ∈ classifyTable pc lc rows →
          (s = "Significant" ↔ r.p_val_adj < pc ∧ |r.avg_log2FC| > lc) ∧
          (¬(r.p_val_adj < pc ∧ |r.avg_log2FC| > lc) → s = "Not Significant")) ∧
    classifyTable (5/100) (5/10) [rowA, rowB] =
      [(rowA, "Significant"), (rowB, "Not Significant")] := by
  constructor
  · intro pc lc rows r s hmem
    obtain ⟨a, _, hpa⟩ := List.mem_map.mp hmem
    obtain ⟨ha, hs⟩ := Prod.mk.injEq .. ▸ hpa
    rw [ha] at hs
    by_cases hc : r.p_val_adj < pc ∧ |r.avg_log2FC| > lc
    · rw [← hs, significant, if_pos hc]
      exact ⟨⟨fun _ => hc, fun _ => rfl⟩, fun h => absurd hc h⟩
    · rw [← hs, significant, if_neg hc]
      exact ⟨⟨fun h => absurd h (by decide), fun h => absurd h hc⟩, fun _ => rfl⟩
  · have hA : significant (5/100) (5/10) rowA = "Significant" := by
      rw [significant, if_pos]
      refine ⟨by norm_num [rowA], ?_⟩
      have : |(12/10 : ℚ)| = 12/10 := abs_of_pos (by norm_num)
      rw [show rowA.avg_log2FC = 12/10 from rfl, this]
      norm_num
    have hB : significant (5/100) (5/10) rowB = "Not Significant" := by
      rw [significant, if_neg]
      rintro ⟨h1, -⟩
      rw [show rowB.p_val_adj = 2/10 from rfl] at h1
      norm_num at h1
    simp [classifyTable, hA, hB]

/-- Witness for C1: the general direction applied to `rowW` inside a
concrete classified table. -/
theorem significant_iff_with_example_witness :
    (rowW, "Not Significant") ∈ classifyTable 1 2 [rowW] ∧
    (("Not Significant" : String) = "Significant" ↔
      rowW.p_val_adj < 1 ∧ |rowW.avg_log2FC| > 2) ∧
    (¬(rowW.p_val_adj < 1 ∧ |rowW.avg_log2FC| > 2) →
      ("Not Significant" : String) = "Not Significant") :=
  ⟨by decide,
    (significant_iff_with_example.1 1 2 [rowW] rowW "Not Significant" (by decide)).1,
    (significant_iff_with_example.1 1 2 [rowW] rowW "Not Significant" (by decide)).2⟩

/-- C2: for an in-range pathway count, the filtered GSEA result consists of
rows matching all four selection fields, is sorted ascending by `padj`,
holds at most `gsea_pathway_count` rows, and is a prefix of the ascending
`padj` ordering of the full matching row set (which it exhausts up to the
truncation remainder). -/
theorem filtered_gsea_spec : ∀ (ds ct c1 c2 : String) (n : ℕ) (rows : List GseaRow),
    5 ≤ n → n ≤ 50 →
      (∀ r ∈ filtered_gsea ds ct c1 c2 n rows, gseaMatches ds ct c1 c2 r = true) ∧
      List.Sorted lePadj (filtered_gsea ds ct c1 c2 n rows) ∧
      (filtered_gsea ds ct c1 c2 n rows).length ≤ n ∧
      ∃ rest, filtered_gsea ds ct c1 c2 n rows ++ rest =
          List.insertionSort lePadj (rows.filter (gseaMatches ds ct c1 c2)) ∧
        (filtered_gsea ds ct c1 c2 n rows ++ rest).Perm
          (rows.filter (gseaMatches ds ct c1 c2)) := by
  intro ds ct c1 c2 n rows _ _
  refine ⟨?_, ?_, ?_, ?_⟩
  · intro r hr
    have h1 : r ∈ List.insertionSort lePadj (rows.filter (gseaMatches ds ct c1 c2)) :=
      List.mem_of_mem_take hr
    have h2 : r ∈ rows.filter (gseaMatches ds ct c1 c2) :=
      (List.perm_insertionSort _ _).mem_iff.mp h1
    exact (List.mem_filter.mp h2).2
  · exact List.Pairwise.sublist (List.take_sublist _ _)
      (List.sorted_insertionSort lePadj _)
  · rw [filtered_gsea, List.length_take]
    exact min_le_left _ _
  · refine ⟨(List.insertionSort lePadj (rows.filter (gseaMatches ds ct c1 c2))).drop n,
      ?_, ?_⟩
    · rw [filtered_gsea, List.take_append_drop]
    · rw [filtered_gsea, List.take_append_drop]
      exact List.perm_insertionSort _ _

/-- Witness for C2 at pathway count 5 over a one-row matching GSEA table. -/
theorem filtered_gsea_spec_witness :
    5 ≤ 5 ∧ 5 ≤ 50 ∧
      ((∀ r ∈ filtered_gsea "d" "T" "X" "Y" 5 [gRow],
          gseaMatches "d" "T" "X" "Y" r = true) ∧
       List.Sorted lePadj (filtered_gsea "d" "T" "X" "Y" 5 [gRow]) ∧
       (filtered_gsea "d" "T" "X" "Y" 5 [gRow]).length ≤ 5 ∧
       ∃ rest, filtered_gsea "d" "T" "X" "Y" 5 [gRow] ++ rest =
           List.insertionSort lePadj ([gRow].filter (gseaMatches "d" "T" "X" "Y")) ∧
         (filtered_gsea "d" "T" "X" "Y" 5 [gRow] ++ rest).Perm
           ([gRow].filter (gseaMatches "d" "T" "X" "Y"))) :=
  ⟨by decide, by decide,
    filtered_gsea_spec "d" "T" "X" "Y" 5 [gRow] (by decide) (by decide)⟩

/-- Membership in the cell-type-restricted DGE subset unfolds to membership
in the unified table together with the two field equations. -/
theorem mem_dge_cell_type_subset {ds ct : String} {rows : List DgeRow} {r : DgeRow} :
    r ∈ dge_cell_type_subset ds ct rows ↔
      r ∈ rows ∧ r.dataset = ds ∧ r.cell_type = ct := by
  simp only [dge_cell_type_subset, dge_subset, List.mem_filter, decide_eq_true_eq,
    and_assoc]

/-- C8: the comparison-group-2 option set consists exactly of the distinct
`comp2` values among DGE rows matching the selected dataset, cell type and
`comp1`; it is lexicographically sorted without duplicates, and it is
non-empty whenever `comp1` was itself offered as an option. -/
theorem comp2Options_spec : ∀ (ds ct c1 : String) (rows : List DgeRow),
    (∀ x, x ∈ comp2Options ds ct c1 rows ↔
        ∃ r ∈ rows, r.dataset = ds ∧ r.cell_type = ct ∧ r.comp1 = c1 ∧ r.comp2 = x) ∧
    List.Sorted (· ≤ ·) (comp2Options ds ct c1 rows) ∧
    (comp2Options ds ct c1 rows).Nodup ∧
    (c1 ∈ comp1Options ds ct rows → comp2Options ds ct c1 rows ≠ []) := by
  intro ds ct c1 rows
  have hmem : ∀ x, x ∈ comp2Options ds ct c1 rows ↔
      ∃ r ∈ rows, r.dataset = ds ∧ r.cell_type = ct ∧ r.comp1 = c1 ∧ r.comp2 = x := by
    intro x
    rw [comp2Options, (List.perm_insertionSort _ _).mem_iff, List.mem_dedup,
      List.mem_map]
    constructor
    · rintro ⟨r, hr, rfl⟩
      obtain ⟨hsub, hc1⟩ := List.mem_filter.mp hr
      obtain ⟨hrows, hds, hct⟩ := mem_dge_cell_type_subset.mp hsub
      exact ⟨r, hrows, hds, hct, of_decide_eq_true hc1, rfl⟩
    · rintro ⟨r, hrows, hds, hct, hc1, hx⟩
      exact ⟨r, List.mem_filter.mpr
        ⟨mem_dge_cell_type_subset.mpr ⟨hrows, hds, hct⟩, decide_eq_true hc1⟩, hx⟩
  refine ⟨hmem, List.sorted_insertionSort _ _,
    ((List.perm_insertionSort _ _).nodup_iff).mpr (List.nodup_dedup _), ?_⟩
  intro hc1
  rw [comp1Options, (List.perm_insertionSort _ _).mem_iff, List.mem_dedup,
    List.mem_map] at hc1
  obtain ⟨r, hr, hrc1⟩ := hc1
  obtain ⟨hrows, hds, hct⟩ := mem_dge_cell_type_subset.mp hr
  exact List.ne_nil_of_mem ((hmem r.comp2).mpr ⟨r, hrows, hds, hct, hrc1, rfl⟩)

/-- Witness for C8 on a one-row table where `comp1 = X` is offered. -/
theorem comp2Options_spec_witness :
    ("X" ∈ comp1Options "d" "T" [rowW]) ∧
    ("Y" ∈ comp2Options "d" "T" "X" [rowW] ↔
      ∃ r ∈ [rowW], r.dataset = "d" ∧ r.cell_type = "T" ∧ r.comp1 = "X" ∧
        r.comp2 = "Y") ∧
    comp2Options "d" "T" "X" [rowW] ≠ [] :=
  ⟨by decide, (comp2Options_spec "d" "T" "X" [rowW]).1 "Y",
    (comp2Options_spec "d" "T" "X" [rowW]).2.2.2 (by decide)⟩

/-- Membership in a tagged table: the tag is the dataset key and the payload
is a row of the source table. -/
theorem mem_tagRows {α : Type} {q : String × α} {name : String} {rows : List α} :
    q ∈ tagRows name rows ↔ q.1 = name ∧ q.2 ∈ rows := by
  constructor
  · intro h
    obtain ⟨r, hr, hq⟩ := List.mem_map.mp h
    rw [← hq]
    exact ⟨rfl, hr⟩
  · rintro ⟨h1, h2⟩
    obtain ⟨a, b⟩ := q
    cases h1
    exact List.mem_map.mpr ⟨b, h2, rfl⟩

/-- Membership in the concatenation of the tagged tables: a tagged row comes
from the table stored under its own tag. -/
theorem mem_flatMap_tag {α : Type} {ts : List (String × List α)} {q : String × α} :
    q ∈ ts.flatMap (fun nt => tagRows nt.1 nt.2) ↔
      ∃ rows, (q.1, rows) ∈ ts ∧ q.2 ∈ rows := by
  rw [List.mem_flatMap]
  constructor
  · rintro ⟨nt, hnt, hq⟩
    obtain ⟨h1, h2⟩ := mem_tagRows.mp hq
    refine ⟨nt.2, ?_, h2⟩
    rw [h1]
    exact hnt
  · rintro ⟨rows, hmem, hq⟩
    exact ⟨(q.1, rows), hmem, mem_tagRows.mpr ⟨rfl, hq⟩⟩

/-- When the dataset keys are distinct, restricting the concatenated table to
one dataset key recovers exactly the tagged rows of that source, in order. -/
theorem filter_flatMap_tag {α : Type} (ts : List (String × List α)) (name : String)
    (rows : List α) (hnd : (ts.map Prod.fst).Nodup) (hmem : (name, rows) ∈ ts) :
    (ts.flatMap fun nt => tagRows nt.1 nt.2).filter (fun q => decide (q.1 = name)) =
      tagRows name rows := by
  induction ts with
  | nil => cases hmem
  | cons hd tl ih =>
    rw [List.flatMap_cons, List.filter_append]
    have hnd' : (tl.map Prod.fst).Nodup := (List.nodup_cons.mp hnd).2
    have hhd : hd.1 ∉ tl.map Prod.fst := (List.nodup_cons.mp hnd).1
    rcases List.mem_cons.mp hmem with heq | htl
    · have h1 : (tagRows hd.1 hd.2).filter (fun q => decide (q.1 = name)) =
          tagRows name rows := by
        rw [← heq]
        exact List.filter_eq_self.mpr fun q hq =>
          decide_eq_true (mem_tagRows.mp hq).1
      have h2 : (tl.flatMap fun nt => tagRows nt.1 nt.2).filter
          (fun q => decide (q.1 = name)) = [] := by
        rw [List.filter_eq_nil_iff]
        intro q hq
        obtain ⟨rows', hrows', -⟩ := mem_flatMap_tag.mp hq
        have hkey : q.1 ∈ tl.map Prod.fst := List.mem_map.mpr ⟨(q.1, rows'), hrows', rfl⟩
        simp only [decide_eq_true_eq]
        intro h
        rw [h, ← show hd.1 = name from congrArg Prod.fst heq.symm] at hkey
        exact hhd hkey
      rw [h1, h2, List.append_nil]
    · have hne : hd.1 ≠ name := by
        intro h
        have : name ∈ tl.map Prod.fst := List.mem_map.mpr ⟨(name, rows), htl, rfl⟩
        rw [← h] at this
        exact hhd this
      have h1 : (tagRows hd.1 hd.2).filter (fun q => decide (q.1 = name)) = [] := by
        rw [List.filter_eq_nil_iff]
        intro q hq
        simp only [decide_eq_true_eq]
        rw [(mem_tagRows.mp hq).1]
        exact hne
      rw [h1, List.nil_append]
      exact ih hnd' htl

/-- The dataset keys of the successfully loaded tables form a subsequence of
the configured keys. -/
theorem collect_keys_sublist {α : Type} (read : String → Option (List α)) :
    ∀ (files : List (String × String)),
      ((collectTables read files).map Prod.fst).Sublist (files.map Prod.fst) := by
  intro files
  induction files with
  | nil => simp [collectTables]
  | cons hd tl ih =>
    rw [collectTables, List.filterMap_cons]
    cases hread : read hd.2 with
    | none => exact List.Sublist.trans ih (List.sublist_cons_self _ _)
    | some t => exact List.Sublist.cons₂ _ ih

/-- C6: whenever `load_data` succeeds, the unified table is the pure
concatenation of the successfully loaded sources — its row count is the sum
of the per-source row counts, filtering it by one loaded dataset key yields
exactly the rows of that source in their original order, and every row is tagged
with the key of a loaded source containing it. -/
theorem load_table_union_spec : ∀ {α : Type} (read : String → Option (List α))
    (files : List (String × String)) (out : List (String × α)),
    (files.map Prod.fst).Nodup →
    load_table read files = some out →
      out.length = ((collectTables read files).map fun nt => nt.2.length).sum ∧
      (∀ name rows, (name, rows) ∈ collectTables read files →
        out.filter (fun q => decide (q.1 = name)) = tagRows name rows) ∧
      (∀ q ∈ out, ∃ rows, (q.1, rows) ∈ collectTables read files ∧ q.2 ∈ rows) := by
  intro α read files out hnd hload
  have hout : out = (collectTables read files).flatMap fun nt => tagRows nt.1 nt.2 := by
    rw [load_table, pdConcat] at hload
    by_cases he : (collectTables read files).isEmpty
    · rw [if_pos he] at hload
      cases hload
    · rw [if_neg he] at hload
      exact (Option.some.injEq _ _ ▸ hload).symm
  have hndk : ((collectTables read files).map Prod.fst).Nodup :=
    List.Sublist.nodup (collect_keys_sublist read files) hnd
  subst hout
  refine ⟨?_, ?_, ?_⟩
  · rw [List.length_flatMap]
    congr 1
    exact List.map_congr_left fun nt _ => List.length_map _ _
  · intro name rows hmem
    exact filter_flatMap_tag _ name rows hndk hmem
  · intro q hq
    exact mem_flatMap_tag.mp hq

/-- Witness for C6: only the first configured DGE file is present and holds
two rows; the loader tags and concatenates exactly those. -/
theorem load_table_union_spec_witness :
    (dge_files.map Prod.fst).Nodup ∧
    load_table
        (fun path => if path = "data/cd45pos_rrgcell_degs_wilcoxon.csv" then
          some [rowW, rowW2] else none) dge_files =
      some [("cd45pos_rrg", rowW), ("cd45pos_rrg", rowW2)] ∧
    ([("cd45pos_rrg", rowW), ("cd45pos_rrg", rowW2)].length =
        ((collectTables
            (fun path => if path = "data/cd45pos_rrgcell_degs_wilcoxon.csv" then
              some [rowW, rowW2] else none) dge_files).map
          fun nt => nt.2.length).sum ∧
      (∀ name rows, (name, rows) ∈ collectTables
          (fun path => if path = "data/cd45pos_rrgcell_degs_wilcoxon.csv" then
            some [rowW, rowW2] else none) dge_files →
        [("cd45pos_rrg", rowW), ("cd45pos_rrg", rowW2)].filter
            (fun q => decide (q.1 = name)) = tagRows name rows) ∧
      (∀ q ∈ [("cd45pos_rrg", rowW), ("cd45pos_rrg", rowW2)],
        ∃ rows, (q.1, rows) ∈ collectTables
            (fun path => if path = "data/cd45pos_rrgcell_degs_wilcoxon.csv" then
              some [rowW, rowW2] else none) dge_files ∧ q.2 ∈ rows)) :=
  ⟨by decide, by decide,
    load_table_union_spec
      (fun path => if path = "data/cd45pos_rrgcell_degs_wilcoxon.csv" then
        some [rowW, rowW2] else none)
      dge_files [("cd45pos_rrg", rowW), ("cd45pos_rrg", rowW2)]
      (by decide) (by decide)⟩

end RrgDeg
